import Mathlib

/-!
Verification of the Blockchain-Voting repository (Solidity contracts),
shallowly embedded in Lean 4.

Three contracts are modelled, each in its own namespace:

* `VC`  — `contracts/contracts/VotingContract.sol` together with the
  `VotingAccessControl` base contract it inherits from
  (`contracts/contracts/AccessControl.sol`) and the OpenZeppelin
  `Pausable` flag.  Addresses and timestamps are `Nat`; `msg.sender` and
  `block.timestamp` are explicit arguments of every operation; a call
  that reverts is `Except.error`, a call that commits is `Except.ok`
  with the successor state (revert semantics: an error leaves the
  caller with the unchanged input state).
* `RM`  — the role-management variant of `VotingContract`
  (file `src/unnamed/part_004`), which uses enumerable role sets.
* `VS`  — the simple `contracts/contracts/VotingSystem.sol` variant.

Solidity `mapping`s are total functions with the zero value as default;
the per-election `hasVoted` mapping and the per-candidate `votes`
mapping are kept as a list of marked addresses and an association list
respectively, so that the cardinality of the ballots-cast set and the
sum of the per-candidate counters are definable.  `require(cond, msg)`
failures and custom errors are both constructors of an error type; each
constructor is annotated with the exact source message it stands for.
-/

/-- Pointwise update of a `Nat`-indexed map (Solidity mapping write). -/
def upd {α : Type} (f : Nat → α) (k : Nat) (v : α) : Nat → α :=
  fun i => if i = k then v else f i

theorem upd_same {α : Type} (f : Nat → α) (k : Nat) (v : α) : upd f k v k = v := by
  simp [upd]

theorem upd_other {α : Type} (f : Nat → α) (k : Nat) (v : α) {i : Nat} (h : i ≠ k) :
    upd f k v i = f i := by
  simp [upd, h]

namespace VC

/-- The roles of `VotingAccessControl` (`bytes32` constants in the source). -/
inductive Role
  | DEFAULT_ADMIN
  | ADMIN
  | VOTER
  | ELECTION_CREATOR
deriving DecidableEq

/-- `struct Candidate` of `VotingContract.sol` (field `exists` is `exists_`). -/
structure Candidate where
  id : Nat
  name : String
  description : String
  voteCount : Nat
  exists_ : Bool
  addedBy : Nat
  addedAt : Nat
deriving DecidableEq

/-- The zero value of the `candidates` mapping. -/
def Candidate.default0 : Candidate :=
  { id := 0, name := "", description := "", voteCount := 0,
    exists_ := false, addedBy := 0, addedAt := 0 }

/-- `struct Election` of `VotingContract.sol`.  The mapping
`hasVoted : address => bool` is kept as the list of addresses marked
`true` (inserted by `setTrue`, so it stays duplicate-free), and the
mapping `votes : uint256 => uint256` as an association list with
default value 0, so that set cardinality and value sums are definable. -/
structure Election where
  id : Nat
  title : String
  description : String
  startTime : Nat
  endTime : Nat
  isActive : Bool
  totalVotes : Nat
  candidateIds : List Nat
  hasVoted : List Nat
  votes : List (Nat × Nat)
  creator : Nat
  createdAt : Nat
deriving DecidableEq

/-- The zero value of the `elections` mapping. -/
def Election.default0 : Election :=
  { id := 0, title := "", description := "", startTime := 0, endTime := 0,
    isActive := false, totalVotes := 0, candidateIds := [], hasVoted := [],
    votes := [], creator := 0, createdAt := 0 }

/-- Write `true` into a set-as-list (mapping write `m[a] = true`). -/
def setTrue (l : List Nat) (a : Nat) : List Nat :=
  if a ∈ l then l else a :: l

/-- Lookup in the association list with the mapping default 0. -/
def lookup0 (m : List (Nat × Nat)) (k : Nat) : Nat :=
  match m with
  | [] => 0
  | (k', v) :: rest => if k' = k then v else lookup0 rest k

/-- The mapping write `m[k] = m[k] + 1` on the association-list form. -/
def bump (m : List (Nat × Nat)) (k : Nat) : List (Nat × Nat) :=
  match m with
  | [] => [(k, 1)]
  | (k', v) :: rest => if k' = k then (k', v + 1) :: rest else (k', v) :: bump rest k

/-- Sum of the values stored in the per-candidate vote mapping. -/
def sumVals (m : List (Nat × Nat)) : Nat := (m.map Prod.snd).sum

/-- Every revert of `VotingContract` / `VotingAccessControl`:
custom errors keep their arguments, `require` messages become bare
constructors (the string each one stands for is noted). -/
inductive Err
  | electionNotFound (id : Nat)        -- error ElectionNotFound
  | candidateNotFound (id : Nat)       -- error CandidateNotFound
  | electionNotActive (id : Nat)       -- error ElectionNotActive
  | electionNotStarted (id : Nat)      -- error ElectionNotStarted
  | electionEnded (id : Nat)           -- error ElectionEnded
  | invalidTimeRange (a b : Nat)       -- error InvalidTimeRange
  | invalidCandidateData (n d : String) -- error InvalidCandidateData
  | voterAlreadyVoted (a : Nat)        -- error VoterAlreadyVoted
  | alreadyRegistered                  -- "AccessControl: Voter already registered"
  | emptyBatch                         -- "AccessControl: Empty voters array"
  | batchTooLarge                      -- "AccessControl: Too many voters in batch"
  | callerNotAdmin                     -- "AccessControl: Must have admin role"
  | callerNotVoter                     -- "AccessControl: Must have voter role"
  | callerNotElectionCreator           -- "AccessControl: Must have election creator role"
  | candidateNotInElection             -- "VotingContract: Candidate not in this election"
  | alreadyEnded                       -- "VotingContract: Election already ended"
  | pausedErr                          -- "Pausable: paused"
  | notPausedErr                       -- "Pausable: not paused"
deriving DecidableEq

/-- Full storage of the deployed `VotingContract` (which inherits the
`VotingAccessControl` role state and the `Pausable` flag).
`electionIds` / `candidateIds` are the `Counters.Counter` values. -/
structure State where
  roles : Role → Nat → Bool
  isVoterRegistered : Nat → Bool
  voterRegistrationTime : Nat → Nat
  paused : Bool
  electionIds : Nat
  candidateIds : Nat
  elections : Nat → Election
  candidates : Nat → Candidate
  totalVotesCast : Nat → Nat
  electionsVotedIn : Nat → Nat → Bool

/-- OpenZeppelin `_grantRole` / `_revokeRole` as a pointwise map write. -/
def setRole (m : Role → Nat → Bool) (r : Role) (a : Nat) (v : Bool) : Role → Nat → Bool :=
  fun r' a' => if r' = r ∧ a' = a then v else m r' a'

/-- Constructor of `VotingAccessControl`: the deployer receives
`DEFAULT_ADMIN_ROLE`, `ADMIN_ROLE` and `ELECTION_CREATOR_ROLE`;
all other storage is zero. -/
def initialState (deployer : Nat) : State where
  roles := fun r a =>
    if (r = Role.DEFAULT_ADMIN ∨ r = Role.ADMIN ∨ r = Role.ELECTION_CREATOR) ∧ a = deployer
    then true else false
  isVoterRegistered := fun _ => false
  voterRegistrationTime := fun _ => 0
  paused := false
  electionIds := 0
  candidateIds := 0
  elections := fun _ => Election.default0
  candidates := fun _ => Candidate.default0
  totalVotesCast := fun _ => 0
  electionsVotedIn := fun _ _ => false

/-- The body shared by `registerVoter` and the batch loop: grant
`VOTER_ROLE`, set `isVoterRegistered`, record the registration time. -/
def registerOne (s : State) (now voter : Nat) : State :=
  { s with roles := setRole s.roles Role.VOTER voter true,
           isVoterRegistered := upd s.isVoterRegistered voter true,
           voterRegistrationTime := upd s.voterRegistrationTime voter now }

/-- `registerVoter` of `AccessControl.sol` (modifier `onlyAdmin`, then
the already-registered check). -/
def registerVoter (s : State) (caller now voter : Nat) : Except Err State :=
  if s.roles Role.ADMIN caller = true then
    if s.isVoterRegistered voter = true then Except.error Err.alreadyRegistered
    else Except.ok (registerOne s now voter)
  else Except.error Err.callerNotAdmin

/-- One iteration of the `batchRegisterVoters` loop: an
already-registered address is skipped, otherwise it is registered. -/
def batchStep (now : Nat) (s : State) (voter : Nat) : State :=
  if s.isVoterRegistered voter = true then s else registerOne s now voter

/-- `batchRegisterVoters` of `AccessControl.sol`: `onlyAdmin`, the
non-empty and `<= 100` length checks, then the skipping loop. -/
def batchRegisterVoters (s : State) (caller now : Nat) (voters : List Nat) : Except Err State :=
  if s.roles Role.ADMIN caller = true then
    if voters.length = 0 then Except.error Err.emptyBatch
    else if 100 < voters.length then Except.error Err.batchTooLarge
    else Except.ok (voters.foldl (batchStep now) s)
  else Except.error Err.callerNotAdmin

/-- `grantElectionCreatorRole` of `AccessControl.sol`. -/
def grantElectionCreatorRole (s : State) (caller account : Nat) : Except Err State :=
  if s.roles Role.ADMIN caller = true then
    Except.ok { s with roles := setRole s.roles Role.ELECTION_CREATOR account true }
  else Except.error Err.callerNotAdmin

/-- `revokeElectionCreatorRole` of `AccessControl.sol`. -/
def revokeElectionCreatorRole (s : State) (caller account : Nat) : Except Err State :=
  if s.roles Role.ADMIN caller = true then
    Except.ok { s with roles := setRole s.roles Role.ELECTION_CREATOR account false }
  else Except.error Err.callerNotAdmin

/-- The write section of `createElection`: increment the counter and
assign the fields of the fresh `Election storage` slot one by one (the
embedded `hasVoted` / `votes` mappings of the slot are left as they
were, exactly as in the source). -/
def createElectionCommit (s : State) (caller now : Nat) (title descr : String)
    (startTime endTime : Nat) (cids : List Nat) : State :=
  { s with
    electionIds := s.electionIds + 1,
    elections := upd s.elections (s.electionIds + 1)
      { s.elections (s.electionIds + 1) with
        id := s.electionIds + 1, title := title, description := descr,
        startTime := startTime, endTime := endTime,
        isActive := true, totalVotes := 0, candidateIds := cids,
        creator := caller, createdAt := now } }

/-- `createElection` of `VotingContract.sol`: modifiers
`onlyElectionCreator` and `whenNotPaused`, then the two time-range
checks; the candidate roster is stored verbatim (the source performs no
validation of `_candidateIds`). -/
def createElection (s : State) (caller now : Nat) (title descr : String)
    (startTime endTime : Nat) (cids : List Nat) : Except Err State :=
  if s.roles Role.ELECTION_CREATOR caller = true then
    if s.paused = true then Except.error Err.pausedErr
    else if endTime ≤ startTime then Except.error (Err.invalidTimeRange startTime endTime)
    else if startTime ≤ now then Except.error (Err.invalidTimeRange startTime now)
    else Except.ok (createElectionCommit s caller now title descr startTime endTime cids)
  else Except.error Err.callerNotElectionCreator

/-- The write section of `addCandidate`. -/
def addCandidateCommit (s : State) (caller now : Nat) (nam descr : String) : State :=
  { s with
    candidateIds := s.candidateIds + 1,
    candidates := upd s.candidates (s.candidateIds + 1)
      { id := s.candidateIds + 1, name := nam, description := descr,
        voteCount := 0, exists_ := true, addedBy := caller, addedAt := now } }

/-- `addCandidate` of `VotingContract.sol`. -/
def addCandidate (s : State) (caller now : Nat) (nam descr : String) : Except Err State :=
  if s.roles Role.ELECTION_CREATOR caller = true then
    if s.paused = true then Except.error Err.pausedErr
    else if nam = "" ∨ descr = "" then Except.error (Err.invalidCandidateData nam descr)
    else Except.ok (addCandidateCommit s caller now nam descr)
  else Except.error Err.callerNotElectionCreator

/-- The write section of `castVote`: mark the caller as having voted in
this election, increment the per-candidate counter, the election total
and the global candidate tally, and update the voter profile — all in
one transition. -/
def castVoteCommit (s : State) (caller electionId candidateId : Nat) : State :=
  { s with
    elections := upd s.elections electionId
      { s.elections electionId with
        hasVoted := setTrue (s.elections electionId).hasVoted caller,
        votes := bump (s.elections electionId).votes candidateId,
        totalVotes := (s.elections electionId).totalVotes + 1 },
    candidates := upd s.candidates candidateId
      { s.candidates candidateId with
        voteCount := (s.candidates candidateId).voteCount + 1 },
    totalVotesCast := upd s.totalVotesCast caller (s.totalVotesCast caller + 1),
    electionsVotedIn := fun a e =>
      if a = caller ∧ e = electionId then true else s.electionsVotedIn a e }

/-- `castVote` of `VotingContract.sol`.  The guards run in the order of
the modifier list of the source — `onlyVoter`, `electionExists`,
`candidateExists`, `onlyDuringElection`, `hasNotVoted`,
`whenNotPaused` — followed by the roster-membership `require` of the
body, and only then the writes of `castVoteCommit` happen. -/
def castVote (s : State) (caller now electionId candidateId : Nat) : Except Err State :=
  if s.roles Role.VOTER caller = true then
    if electionId = 0 ∨ s.electionIds < electionId then
      Except.error (Err.electionNotFound electionId)
    else if (s.candidates candidateId).exists_ = false then
      Except.error (Err.candidateNotFound candidateId)
    else if (s.elections electionId).isActive = false then
      Except.error (Err.electionNotActive electionId)
    else if now < (s.elections electionId).startTime then
      Except.error (Err.electionNotStarted electionId)
    else if (s.elections electionId).endTime < now then
      Except.error (Err.electionEnded electionId)
    else if caller ∈ (s.elections electionId).hasVoted then
      Except.error (Err.voterAlreadyVoted caller)
    else if s.paused = true then
      Except.error Err.pausedErr
    else if candidateId ∈ (s.elections electionId).candidateIds then
      Except.ok (castVoteCommit s caller electionId candidateId)
    else Except.error Err.candidateNotInElection
  else Except.error Err.callerNotVoter

/-- The write section of `endElection`. -/
def endElectionCommit (s : State) (electionId : Nat) : State :=
  { s with
    elections := upd s.elections electionId
      { s.elections electionId with isActive := false } }

/-- `endElection` of `VotingContract.sol`: `onlyElectionCreator` and
`electionExists` only — there is no pause gate on this function. -/
def endElection (s : State) (caller electionId : Nat) : Except Err State :=
  if s.roles Role.ELECTION_CREATOR caller = true then
    if electionId = 0 ∨ s.electionIds < electionId then
      Except.error (Err.electionNotFound electionId)
    else if (s.elections electionId).isActive = true then
      Except.ok (endElectionCommit s electionId)
    else Except.error Err.alreadyEnded
  else Except.error Err.callerNotElectionCreator

/-- The write section of `toggleElectionStatus`. -/
def toggleCommit (s : State) (electionId : Nat) : State :=
  { s with
    elections := upd s.elections electionId
      { s.elections electionId with
        isActive := !(s.elections electionId).isActive } }

/-- `toggleElectionStatus` of `VotingContract.sol`: flips `isActive`
unconditionally; again no pause gate. -/
def toggleElectionStatus (s : State) (caller electionId : Nat) : Except Err State :=
  if s.roles Role.ELECTION_CREATOR caller = true then
    if electionId = 0 ∨ s.electionIds < electionId then
      Except.error (Err.electionNotFound electionId)
    else
      Except.ok (toggleCommit s electionId)
  else Except.error Err.callerNotElectionCreator

/-- `pause` (`onlyAdmin`; OpenZeppelin `_pause` itself requires the
contract not to be paused yet). -/
def pause (s : State) (caller : Nat) : Except Err State :=
  if s.roles Role.ADMIN caller = true then
    if s.paused = true then Except.error Err.pausedErr
    else Except.ok { s with paused := true }
  else Except.error Err.callerNotAdmin

/-- `unpause` (`onlyAdmin`; `_unpause` requires the contract paused). -/
def unpause (s : State) (caller : Nat) : Except Err State :=
  if s.roles Role.ADMIN caller = true then
    if s.paused = false then Except.error Err.notPausedErr
    else Except.ok { s with paused := false }
  else Except.error Err.callerNotAdmin

/-- One external transaction against the contract, with explicit
`msg.sender` and `block.timestamp` where the source reads them. -/
inductive Op
  | castVote (caller now electionId candidateId : Nat)
  | createElection (caller now : Nat) (title descr : String)
      (startTime endTime : Nat) (cids : List Nat)
  | addCandidate (caller now : Nat) (nam descr : String)
  | endElection (caller electionId : Nat)
  | toggleElectionStatus (caller electionId : Nat)
  | registerVoter (caller now voter : Nat)
  | batchRegisterVoters (caller now : Nat) (voters : List Nat)
  | grantElectionCreatorRole (caller account : Nat)
  | revokeElectionCreatorRole (caller account : Nat)
  | pause (caller : Nat)
  | unpause (caller : Nat)

/-- Dispatch one transaction. -/
def exec (s : State) : Op → Except Err State
  | Op.castVote caller now eid cid => castVote s caller now eid cid
  | Op.createElection caller now t d st en cids => createElection s caller now t d st en cids
  | Op.addCandidate caller now n d => addCandidate s caller now n d
  | Op.endElection caller eid => endElection s caller eid
  | Op.toggleElectionStatus caller eid => toggleElectionStatus s caller eid
  | Op.registerVoter caller now v => registerVoter s caller now v
  | Op.batchRegisterVoters caller now vs => batchRegisterVoters s caller now vs
  | Op.grantElectionCreatorRole caller a => grantElectionCreatorRole s caller a
  | Op.revokeElectionCreatorRole caller a => revokeElectionCreatorRole s caller a
  | Op.pause caller => pause s caller
  | Op.unpause caller => unpause s caller

/-- States reachable from deployment by committed transactions
(a reverted transaction leaves the state unchanged, so only `ok`
results advance). -/
inductive Reachable : State → Prop
  | init (deployer : Nat) : Reachable (initialState deployer)
  | step {s s' : State} (op : Op) : Reachable s → exec s op = Except.ok s' → Reachable s'

end VC

namespace VC

theorem sumVals_nil : sumVals [] = 0 := rfl

theorem sumVals_bump (m : List (Nat × Nat)) (k : Nat) :
    sumVals (bump m k) = sumVals m + 1 := by
  induction m with
  | nil => simp [bump, sumVals]
  | cons hd tl ih =>
    obtain ⟨k', v⟩ := hd
    by_cases h : k' = k
    · simp [bump, h, sumVals]
      omega
    · simp [bump, h, sumVals] at ih ⊢
      omega

theorem setTrue_length_of_not_mem {l : List Nat} {a : Nat} (h : a ∉ l) :
    (setTrue l a).length = l.length + 1 := by
  simp [setTrue, h]

theorem setTrue_nodup {l : List Nat} {a : Nat} (h : l.Nodup) :
    (setTrue l a).Nodup := by
  by_cases hm : a ∈ l
  · simpa [setTrue, hm] using h
  · have hcons : (a :: l).Nodup := List.nodup_cons.mpr ⟨hm, h⟩
    simpa [setTrue, hm] using hcons

theorem mem_setTrue (l : List Nat) (a : Nat) : a ∈ setTrue l a := by
  by_cases hm : a ∈ l <;> simp [setTrue, hm]

theorem mem_setTrue_of_mem {l : List Nat} {b : Nat} (a : Nat) (h : b ∈ l) :
    b ∈ setTrue l a := by
  by_cases hm : a ∈ l <;> simp [setTrue, hm, h]

/-- The per-election ledger invariant (claim C1): the stored aggregate
equals the sum of the per-candidate counters and the cardinality of the
ballots-cast set (the list is duplicate-free, so its length is that
cardinality). -/
def ElInv (e : Election) : Prop :=
  e.totalVotes = sumVals e.votes ∧ e.totalVotes = e.hasVoted.length ∧ e.hasVoted.Nodup

/-- The inductive invariant for `VotingContract`: every election slot
satisfies `ElInv`, and every slot above the election counter is still
the zero value (needed because `createElection` inherits the mappings
of the fresh slot it writes). -/
def Inv (s : State) : Prop :=
  (∀ id, ElInv (s.elections id)) ∧
  (∀ id, s.electionIds < id → s.elections id = Election.default0)

theorem elInv_default0 : ElInv Election.default0 :=
  ⟨rfl, rfl, List.Pairwise.nil⟩

theorem inv_initial (deployer : Nat) : Inv (initialState deployer) :=
  ⟨fun _ => elInv_default0, fun _ _ => rfl⟩

theorem batchFold_elections (now : Nat) (l : List Nat) (s : State) :
    (l.foldl (batchStep now) s).elections = s.elections ∧
    (l.foldl (batchStep now) s).electionIds = s.electionIds := by
  induction l generalizing s with
  | nil => exact ⟨rfl, rfl⟩
  | cons v tl ih =>
    have h := ih (batchStep now s v)
    have hstep : (batchStep now s v).elections = s.elections ∧
        (batchStep now s v).electionIds = s.electionIds := by
      by_cases hv : s.isVoterRegistered v = true <;> simp [batchStep, hv, registerOne]
    simpa [List.foldl_cons, hstep.1, hstep.2] using h

theorem inv_castVoteCommit {s : State} {caller eid cid : Nat}
    (h : Inv s) (hnv : caller ∉ (s.elections eid).hasVoted)
    (hle : ¬(eid = 0 ∨ s.electionIds < eid)) :
    Inv (castVoteCommit s caller eid cid) := by
  obtain ⟨hel, hfresh⟩ := h
  constructor
  · intro id
    by_cases hid : id = eid
    · subst hid
      obtain ⟨ha, hb, hnd⟩ := hel id
      refine ⟨?_, ?_, ?_⟩
      · simp only [castVoteCommit, upd_same]
        rw [sumVals_bump, ha]
      · simp only [castVoteCommit, upd_same]
        rw [setTrue_length_of_not_mem hnv, hb]
      · simp only [castVoteCommit, upd_same]
        exact setTrue_nodup hnd
    · simpa [castVoteCommit, upd_other _ _ _ hid] using hel id
  · intro id hlt
    simp only [castVoteCommit] at hlt ⊢
    have hne : id ≠ eid := by
      simp only [not_or, not_lt] at hle
      omega
    simpa [upd_other _ _ _ hne] using hfresh id hlt

theorem inv_castVote {s s' : State} {caller now eid cid : Nat}
    (h : Inv s) (hc : castVote s caller now eid cid = Except.ok s') : Inv s' := by
  unfold castVote at hc
  split_ifs at hc with h1 h2 h3 h4 h5 h6 h7 h8 h9
  injection hc with hc
  subst hc
  exact inv_castVoteCommit h h7 h2

theorem inv_createElectionCommit {s : State} {caller now : Nat} {t d : String}
    {st en : Nat} {cids : List Nat} (h : Inv s) :
    Inv (createElectionCommit s caller now t d st en cids) := by
  obtain ⟨hel, hfresh⟩ := h
  have hslot : s.elections (s.electionIds + 1) = Election.default0 :=
    hfresh _ (Nat.lt_succ_self _)
  constructor
  · intro id
    by_cases hid : id = s.electionIds + 1
    · subst hid
      simp only [createElectionCommit, upd_same, hslot]
      exact ⟨rfl, rfl, List.Pairwise.nil⟩
    · simpa [createElectionCommit, upd_other _ _ _ hid] using hel id
  · intro id hlt
    simp only [createElectionCommit] at hlt ⊢
    have hne : id ≠ s.electionIds + 1 := by omega
    rw [upd_other _ _ _ hne]
    exact hfresh id (by omega)

theorem inv_createElection {s s' : State} {caller now : Nat} {t d : String}
    {st en : Nat} {cids : List Nat}
    (h : Inv s) (hc : createElection s caller now t d st en cids = Except.ok s') : Inv s' := by
  unfold createElection at hc
  split_ifs at hc with h1 h2 h3 h4
  injection hc with hc
  subst hc
  exact inv_createElectionCommit h

theorem inv_endElection {s s' : State} {caller eid : Nat}
    (h : Inv s) (hc : endElection s caller eid = Except.ok s') : Inv s' := by
  unfold endElection at hc
  split_ifs at hc with h1 h2 h3
  injection hc with hc
  subst hc
  obtain ⟨hel, hfresh⟩ := h
  constructor
  · intro id
    by_cases hid : id = eid
    · subst hid
      simpa [endElectionCommit, upd_same, ElInv] using hel id
    · simpa [endElectionCommit, upd_other _ _ _ hid] using hel id
  · intro id hlt
    have hlt' : s.electionIds < id := hlt
    have hne : id ≠ eid := by
      simp only [not_or, not_lt] at h2
      omega
    show upd s.elections eid _ id = Election.default0
    rw [upd_other _ _ _ hne]
    exact hfresh id hlt'

theorem inv_toggle {s s' : State} {caller eid : Nat}
    (h : Inv s) (hc : toggleElectionStatus s caller eid = Except.ok s') : Inv s' := by
  unfold toggleElectionStatus at hc
  split_ifs at hc with h1 h2
  injection hc with hc
  subst hc
  obtain ⟨hel, hfresh⟩ := h
  constructor
  · intro id
    by_cases hid : id = eid
    · subst hid
      simpa [toggleCommit, upd_same, ElInv] using hel id
    · simpa [toggleCommit, upd_other _ _ _ hid] using hel id
  · intro id hlt
    have hlt' : s.electionIds < id := hlt
    have hne : id ≠ eid := by
      simp only [not_or, not_lt] at h2
      omega
    show upd s.elections eid _ id = Election.default0
    rw [upd_other _ _ _ hne]
    exact hfresh id hlt'

theorem inv_exec {s s' : State} (op : Op)
    (h : Inv s) (hc : exec s op = Except.ok s') : Inv s' := by
  cases op with
  | castVote caller now eid cid => exact inv_castVote h hc
  | createElection caller now t d st en cids => exact inv_createElection h hc
  | addCandidate caller now n d =>
    simp only [exec] at hc
    unfold addCandidate at hc
    split_ifs at hc
    injection hc with hc
    subst hc
    exact ⟨h.1, h.2⟩
  | endElection caller eid =>
    simp only [exec] at hc
    exact inv_endElection h hc
  | toggleElectionStatus caller eid =>
    simp only [exec] at hc
    exact inv_toggle h hc
  | registerVoter caller now v =>
    simp only [exec] at hc
    unfold registerVoter at hc
    split_ifs at hc
    injection hc with hc
    subst hc
    exact ⟨h.1, h.2⟩
  | batchRegisterVoters caller now vs =>
    simp only [exec] at hc
    unfold batchRegisterVoters at hc
    split_ifs at hc
    injection hc with hc
    subst hc
    obtain ⟨he, hi⟩ := batchFold_elections now vs s
    exact ⟨by rw [he]; exact h.1, by rw [he, hi]; exact h.2⟩
  | grantElectionCreatorRole caller a =>
    simp only [exec] at hc
    unfold grantElectionCreatorRole at hc
    split_ifs at hc
    injection hc with hc
    subst hc
    exact ⟨h.1, h.2⟩
  | revokeElectionCreatorRole caller a =>
    simp only [exec] at hc
    unfold revokeElectionCreatorRole at hc
    split_ifs at hc
    injection hc with hc
    subst hc
    exact ⟨h.1, h.2⟩
  | pause caller =>
    simp only [exec] at hc
    unfold pause at hc
    split_ifs at hc
    injection hc with hc
    subst hc
    exact ⟨h.1, h.2⟩
  | unpause caller =>
    simp only [exec] at hc
    unfold unpause at hc
    split_ifs at hc
    injection hc with hc
    subst hc
    exact ⟨h.1, h.2⟩

theorem inv_reachable {s : State} (h : Reachable s) : Inv s := by
  induction h with
  | init deployer => exact inv_initial deployer
  | step op _ hc ih => exact inv_exec op ih hc

end VC

namespace VC

theorem bool_true_of_not_false {b : Bool} (h : ¬(b = false)) : b = true := by
  cases b
  · exact absurd rfl h
  · rfl

/-- The conjunction of the `castVote` checks named by the spec: caller
holds the Voter role, the election exists, is active and the call time
lies in its window, the candidate exists and is on the roster of the
election, and the caller has not yet voted there. -/
def castVoteChecks (s : State) (caller now electionId candidateId : Nat) : Prop :=
  s.roles Role.VOTER caller = true ∧
  ¬(electionId = 0 ∨ s.electionIds < electionId) ∧
  (s.candidates candidateId).exists_ = true ∧
  (s.elections electionId).isActive = true ∧
  (s.elections electionId).startTime ≤ now ∧
  now ≤ (s.elections electionId).endTime ∧
  caller ∉ (s.elections electionId).hasVoted ∧
  candidateId ∈ (s.elections electionId).candidateIds

instance (s : State) (caller now eid cid : Nat) :
    Decidable (castVoteChecks s caller now eid cid) := by
  unfold castVoteChecks
  infer_instance

theorem castVote_ok_of_checks {s : State} {caller now eid cid : Nat}
    (hchk : castVoteChecks s caller now eid cid) (hp : s.paused = false) :
    castVote s caller now eid cid = Except.ok (castVoteCommit s caller eid cid) := by
  obtain ⟨h1, h2, h3, h4, h5, h6, h7, h8⟩ := hchk
  unfold castVote
  rw [if_pos h1, if_neg h2,
      if_neg (show ¬((s.candidates cid).exists_ = false) by simp [h3]),
      if_neg (show ¬((s.elections eid).isActive = false) by simp [h4]),
      if_neg (Nat.not_lt.mpr h5), if_neg (Nat.not_lt.mpr h6), if_neg h7,
      if_neg (show ¬(s.paused = true) by simp [hp]), if_pos h8]

theorem castVote_fails_of_not_checks {s : State} {caller now eid cid : Nat}
    (h : ¬ castVoteChecks s caller now eid cid) :
    ∀ s', castVote s caller now eid cid ≠ Except.ok s' := by
  intro s' hc
  apply h
  unfold castVote at hc
  split_ifs at hc with g1 g2 g3 g4 g5 g6 g7 g8 g9
  exact ⟨g1, g2, bool_true_of_not_false g3, bool_true_of_not_false g4,
         Nat.not_lt.mp g5, Nat.not_lt.mp g6, g7, g9⟩

/-- A concrete deployment used for witnesses and counterexamples:
address 1 is the deployer (admin and election creator), address 2 a
registered voter; candidate 1 exists; election 1 is active with window
`[10, 20]`, roster `[1]`, no ballots yet; the pause flag is `p`. -/
def sampleElection : Election :=
  { id := 1, title := "E", description := "D", startTime := 10, endTime := 20,
    isActive := true, totalVotes := 0, candidateIds := [1], hasVoted := [],
    votes := [], creator := 1, createdAt := 3 }

def sampleCandidate : Candidate :=
  { id := 1, name := "A", description := "B", voteCount := 0,
    exists_ := true, addedBy := 1, addedAt := 2 }

def sampleState (p : Bool) : State where
  roles := fun r a =>
    if ((r = Role.DEFAULT_ADMIN ∨ r = Role.ADMIN ∨ r = Role.ELECTION_CREATOR) ∧ a = 1)
       ∨ (r = Role.VOTER ∧ a = 2)
    then true else false
  isVoterRegistered := fun a => if a = 2 then true else false
  voterRegistrationTime := fun a => if a = 2 then 5 else 0
  paused := p
  electionIds := 1
  candidateIds := 1
  elections := upd (fun _ => Election.default0) 1 sampleElection
  candidates := upd (fun _ => Candidate.default0) 1 sampleCandidate
  totalVotesCast := fun _ => 0
  electionsVotedIn := fun _ _ => false

/-- A reachable state with one committed vote, built by replaying a
deployment trace: register voter 2, add candidate 1, create election 1
with roster `[1]` and window `[10, 20]`, then voter 2 votes for
candidate 1 at time 10. -/
def afterOk (r : Except Err State) (d : State) : State :=
  match r with
  | Except.ok s => s
  | Except.error _ => d

def w0 : State := initialState 1
def w1 : State := afterOk (exec w0 (Op.registerVoter 1 5 2)) w0
def w2 : State := afterOk (exec w1 (Op.addCandidate 1 6 ("A") ("B"))) w1
def w3 : State := afterOk (exec w2 (Op.createElection 1 7 ("E") ("D") 10 20 [1])) w2
def w4 : State := afterOk (exec w3 (Op.castVote 2 10 1 1)) w3

theorem w1_step : exec w0 (Op.registerVoter 1 5 2) = Except.ok w1 := rfl

theorem w2_step : exec w1 (Op.addCandidate 1 6 ("A") ("B")) = Except.ok w2 := rfl

theorem w3_step : exec w2 (Op.createElection 1 7 ("E") ("D") 10 20 [1]) = Except.ok w3 := rfl

theorem w4_step : exec w3 (Op.castVote 2 10 1 1) = Except.ok w4 := rfl

theorem w4_reachable : Reachable w4 :=
  Reachable.step _
    (Reachable.step _
      (Reachable.step _
        (Reachable.step _ (Reachable.init 1) w1_step) w2_step) w3_step) w4_step

end VC

/-- Claim C1: in every reachable state of `VotingContract`, every
election slot satisfies `totalVotes = sum of the per-candidate vote
counters = number of principals marked as having cast a ballot`
(the marked list is duplicate-free, so its length is that number), and
every operation of the contract preserves these equalities. -/
theorem claimC1_ledger_invariant (s : VC.State) (h : VC.Reachable s) :
    (∀ id, (s.elections id).totalVotes = VC.sumVals (s.elections id).votes ∧
           (s.elections id).totalVotes = (s.elections id).hasVoted.length ∧
           (s.elections id).hasVoted.Nodup) ∧
    (∀ op s', VC.exec s op = Except.ok s' →
       ∀ id, (s'.elections id).totalVotes = VC.sumVals (s'.elections id).votes ∧
             (s'.elections id).totalVotes = (s'.elections id).hasVoted.length) := by
  have hi := VC.inv_reachable h
  refine ⟨hi.1, ?_⟩
  intro op s' hc id
  have hi' := VC.inv_exec op hi hc
  exact ⟨(hi'.1 id).1, (hi'.1 id).2.1⟩

/-- Witness for C1: the invariant evaluated in the concrete reachable
state `w4` in which one ballot has been cast in election 1. -/
theorem claimC1_ledger_invariant_witness :
    ((VC.w4.elections 1).totalVotes = VC.sumVals (VC.w4.elections 1).votes ∧
     (VC.w4.elections 1).totalVotes = (VC.w4.elections 1).hasVoted.length ∧
     (VC.w4.elections 1).hasVoted.Nodup) ∧
    (VC.w4.elections 1).totalVotes = 1 :=
  ⟨(claimC1_ledger_invariant VC.w4 VC.w4_reachable).1 1, rfl⟩

/-- Counterexample for C2 as stated: in the paused sample state every
check enumerated by the claim holds — Voter role, existing open
election, existing roster candidate, not yet voted — yet `castVote`
does not commit: it reverts with the pause error, because the source
also runs the `whenNotPaused` modifier, which the claim's list of
checks omits. -/
theorem claimC2_counterexample :
    VC.castVoteChecks (VC.sampleState true) 2 15 1 1 ∧
    VC.castVote (VC.sampleState true) 2 15 1 1 = Except.error VC.Err.pausedErr :=
  ⟨by decide, rfl⟩

/-- Claim C2 (amended): castVote is all-or-nothing once the pause flag
is taken into account — if all the enumerated checks hold and the
system is not paused, the call commits in one transition marking the
caller as having voted, bumping the per-candidate counter, the election
total and the global candidate tally; if any enumerated check fails the
call reverts and no successor state is produced. -/
theorem claimC2_castVote_atomic (s : VC.State) (caller now eid cid : Nat) :
    (VC.castVoteChecks s caller now eid cid → s.paused = false →
      VC.castVote s caller now eid cid
        = Except.ok (VC.castVoteCommit s caller eid cid) ∧
      caller ∈ ((VC.castVoteCommit s caller eid cid).elections eid).hasVoted ∧
      ((VC.castVoteCommit s caller eid cid).elections eid).votes
        = VC.bump (s.elections eid).votes cid ∧
      ((VC.castVoteCommit s caller eid cid).elections eid).totalVotes
        = (s.elections eid).totalVotes + 1 ∧
      ((VC.castVoteCommit s caller eid cid).candidates cid).voteCount
        = (s.candidates cid).voteCount + 1) ∧
    (¬ VC.castVoteChecks s caller now eid cid →
      ∀ s', VC.castVote s caller now eid cid ≠ Except.ok s') := by
  constructor
  · intro hchk hp
    refine ⟨VC.castVote_ok_of_checks hchk hp, ?_, ?_, ?_, ?_⟩
    · simp only [VC.castVoteCommit, upd_same]
      exact VC.mem_setTrue _ _
    · simp only [VC.castVoteCommit, upd_same]
    · simp only [VC.castVoteCommit, upd_same]
    · simp only [VC.castVoteCommit, upd_same]
  · exact fun h => VC.castVote_fails_of_not_checks h

/-- Witness for C2 (amended), evaluated in the unpaused sample state:
the checks hold and the vote commits. -/
theorem claimC2_castVote_atomic_witness :
    VC.castVote (VC.sampleState false) 2 15 1 1
      = Except.ok (VC.castVoteCommit (VC.sampleState false) 2 1 1) ∧
    ((VC.castVoteCommit (VC.sampleState false) 2 1 1).elections 1).totalVotes = 1 :=
  ⟨((claimC2_castVote_atomic (VC.sampleState false) 2 15 1 1).1 (by decide) rfl).1, rfl⟩

/-- Counterexample for C3 as stated: with the election-creator caller
and a valid future window, `createElection` succeeds although the
roster `[2]` names a candidate that does not exist, and it also
succeeds with an empty roster — the source never resolves the supplied
candidate ids, so no `CandidateNotFound` revert happens. -/
theorem claimC3_counterexample :
    ((VC.sampleState false).candidates 2).exists_ = false ∧
    VC.createElection (VC.sampleState false) 1 5 ("T") ("U") 10 20 [2]
      = Except.ok (VC.createElectionCommit (VC.sampleState false) 1 5 ("T") ("U") 10 20 [2]) ∧
    ((VC.createElectionCommit (VC.sampleState false) 1 5 ("T") ("U") 10 20 [2]).elections 2).candidateIds
      = [2] ∧
    VC.createElection (VC.sampleState false) 1 5 ("T") ("U") 10 20 []
      = Except.ok (VC.createElectionCommit (VC.sampleState false) 1 5 ("T") ("U") 10 20 []) :=
  ⟨rfl, rfl, rfl, rfl⟩

/-- Claim C3 (amended): `createElection` performs no validation of the
supplied candidate ids at all — any roster, empty or containing ids of
non-existent candidates, is accepted and stored verbatim; only the
caller role, the pause flag and the time range are checked. -/
theorem claimC3_no_roster_validation (s : VC.State) (caller now : Nat)
    (t d : String) (st en : Nat) (cids : List Nat)
    (hrole : s.roles VC.Role.ELECTION_CREATOR caller = true)
    (hp : s.paused = false) (h1 : st < en) (h2 : now < st) :
    VC.createElection s caller now t d st en cids
      = Except.ok (VC.createElectionCommit s caller now t d st en cids) ∧
    ((VC.createElectionCommit s caller now t d st en cids).elections
      (s.electionIds + 1)).candidateIds = cids := by
  constructor
  · unfold VC.createElection
    rw [if_pos hrole, if_neg (show ¬(s.paused = true) by simp [hp]),
        if_neg (Nat.not_le.mpr h1), if_neg (Nat.not_le.mpr h2)]
  · simp only [VC.createElectionCommit, upd_same]

/-- Witness for C3 (amended): an election is created whose roster
`[99]` points at a candidate that does not exist. -/
theorem claimC3_no_roster_validation_witness :
    VC.createElection (VC.sampleState false) 1 5 ("X") ("Y") 10 20 [99]
      = Except.ok (VC.createElectionCommit (VC.sampleState false) 1 5 ("X") ("Y") 10 20 [99]) ∧
    ((VC.sampleState false).candidates 99).exists_ = false :=
  ⟨(claimC3_no_roster_validation (VC.sampleState false) 1 5 ("X") ("Y") 10 20 [99]
      (by decide) rfl (by decide) (by decide)).1, rfl⟩

/-- Counterexample for C4 as stated: with the pause flag set,
`endElection` — a mutating operation — does not revert with the pause
error but commits, deactivating election 1; `endElection` and
`toggleElectionStatus` carry no `whenNotPaused` modifier in the source. -/
theorem claimC4_counterexample :
    (VC.sampleState true).paused = true ∧
    VC.endElection (VC.sampleState true) 1 1
      = Except.ok (VC.endElectionCommit (VC.sampleState true) 1) ∧
    ((VC.endElectionCommit (VC.sampleState true) 1).elections 1).isActive = false :=
  ⟨rfl, rfl, rfl⟩

/-- Claim C4 (amended): the pause flag gates only `castVote`,
`createElection` and `addCandidate`, and in each of them it is checked
after the role (and, for `castVote`, after all other) checks, not
before them; `endElection`, `toggleElectionStatus` and the registration
and role-granting operations commit normally while paused; `unpause`
itself works while paused. -/
theorem claimC4_pause_gating (s : VC.State) (caller : Nat) (hp : s.paused = true) :
    (∀ now t d st en cids, s.roles VC.Role.ELECTION_CREATOR caller = true →
       st < en → now < st →
       VC.createElection s caller now t d st en cids = Except.error VC.Err.pausedErr) ∧
    (∀ now t d st en cids, s.roles VC.Role.ELECTION_CREATOR caller = false →
       VC.createElection s caller now t d st en cids
         = Except.error VC.Err.callerNotElectionCreator) ∧
    (∀ now n d, s.roles VC.Role.ELECTION_CREATOR caller = true →
       VC.addCandidate s caller now n d = Except.error VC.Err.pausedErr) ∧
    (∀ now eid cid, VC.castVoteChecks s caller now eid cid →
       VC.castVote s caller now eid cid = Except.error VC.Err.pausedErr) ∧
    (∀ eid, s.roles VC.Role.ELECTION_CREATOR caller = true →
       ¬(eid = 0 ∨ s.electionIds < eid) → (s.elections eid).isActive = true →
       VC.endElection s caller eid = Except.ok (VC.endElectionCommit s eid)) ∧
    (∀ eid, s.roles VC.Role.ELECTION_CREATOR caller = true →
       ¬(eid = 0 ∨ s.electionIds < eid) →
       VC.toggleElectionStatus s caller eid = Except.ok (VC.toggleCommit s eid)) ∧
    (∀ now v, s.roles VC.Role.ADMIN caller = true → s.isVoterRegistered v = false →
       VC.registerVoter s caller now v = Except.ok (VC.registerOne s now v)) ∧
    (∀ vs, s.roles VC.Role.ADMIN caller = true → vs ≠ [] → vs.length ≤ 100 →
       ∀ now, VC.batchRegisterVoters s caller now vs
         = Except.ok (vs.foldl (VC.batchStep now) s)) ∧
    (s.roles VC.Role.ADMIN caller = true →
       VC.unpause s caller = Except.ok { s with paused := false }) := by
  refine ⟨?_, ?_, ?_, ?_, ?_, ?_, ?_, ?_, ?_⟩
  · intro now t d st en cids hrole h1 h2
    unfold VC.createElection
    rw [if_pos hrole, if_pos hp]
  · intro now t d st en cids hrole
    unfold VC.createElection
    rw [if_neg (by simp [hrole])]
  · intro now n d hrole
    unfold VC.addCandidate
    rw [if_pos hrole, if_pos hp]
  · intro now eid cid hchk
    obtain ⟨h1, h2, h3, h4, h5, h6, h7, h8⟩ := hchk
    unfold VC.castVote
    rw [if_pos h1, if_neg h2,
        if_neg (show ¬((s.candidates cid).exists_ = false) by simp [h3]),
        if_neg (show ¬((s.elections eid).isActive = false) by simp [h4]),
        if_neg (Nat.not_lt.mpr h5), if_neg (Nat.not_lt.mpr h6), if_neg h7, if_pos hp]
  · intro eid hrole hex hact
    unfold VC.endElection
    rw [if_pos hrole, if_neg hex, if_pos hact]
  · intro eid hrole hex
    unfold VC.toggleElectionStatus
    rw [if_pos hrole, if_neg hex]
  · intro now v hrole hreg
    unfold VC.registerVoter
    rw [if_pos hrole, if_neg (by simp [hreg])]
  · intro vs hrole hne hlen now
    unfold VC.batchRegisterVoters
    rw [if_pos hrole, if_neg (by simpa using hne),
        if_neg (Nat.not_lt.mpr hlen)]
  · intro hrole
    unfold VC.unpause
    rw [if_pos hrole, if_neg (by simp [hp])]

/-- Witness for C4 (amended) in the concrete paused sample state:
`createElection` reverts with the pause error while `endElection`
commits. -/
theorem claimC4_pause_gating_witness :
    VC.createElection (VC.sampleState true) 1 5 ("T") ("U") 10 20 [1]
      = Except.error VC.Err.pausedErr ∧
    VC.endElection (VC.sampleState true) 1 1
      = Except.ok (VC.endElectionCommit (VC.sampleState true) 1) := by
  have h := claimC4_pause_gating (VC.sampleState true) 1 rfl
  exact ⟨h.1 5 ("T") ("U") 10 20 [1] (by decide) (by decide) (by decide),
         h.2.2.2.2.1 1 (by decide) (by decide) rfl⟩

/-- Counterexample for C5 as stated: in the paused sample state the
election is active, the caller is an authorized voter who has not yet
voted, the candidate is on the roster, and the call time is exactly
`startTime` — yet the vote does not succeed: it reverts with the pause
error. -/
theorem claimC5_counterexample :
    ((VC.sampleState true).elections 1).startTime = 10 ∧
    VC.castVoteChecks (VC.sampleState true) 2 10 1 1 ∧
    VC.castVote (VC.sampleState true) 2 10 1 1 = Except.error VC.Err.pausedErr :=
  ⟨rfl, by decide, rfl⟩

/-- Claim C5 (amended): for an existing active election with a
well-formed window, an authorized voter and an existing candidate: a
vote at exactly `startTime` or exactly `endTime` commits provided the
voter has not voted, the candidate is on the roster and the system is
not paused; a vote strictly before `startTime` reverts with
`ElectionNotStarted` and a vote strictly after `endTime` reverts with
`ElectionEnded` (these two need no pause or ballot hypotheses, since
`onlyDuringElection` runs before `hasNotVoted` and `whenNotPaused`). -/
theorem claimC5_window_boundaries (s : VC.State) (caller eid cid : Nat)
    (h1 : s.roles VC.Role.VOTER caller = true)
    (h2 : ¬(eid = 0 ∨ s.electionIds < eid))
    (h3 : (s.candidates cid).exists_ = true)
    (h4 : (s.elections eid).isActive = true)
    (hw : (s.elections eid).startTime ≤ (s.elections eid).endTime) :
    (caller ∉ (s.elections eid).hasVoted → cid ∈ (s.elections eid).candidateIds →
       s.paused = false →
       VC.castVote s caller (s.elections eid).startTime eid cid
         = Except.ok (VC.castVoteCommit s caller eid cid) ∧
       VC.castVote s caller (s.elections eid).endTime eid cid
         = Except.ok (VC.castVoteCommit s caller eid cid)) ∧
    (∀ now, now < (s.elections eid).startTime →
       VC.castVote s caller now eid cid = Except.error (VC.Err.electionNotStarted eid)) ∧
    (∀ now, (s.elections eid).endTime < now →
       VC.castVote s caller now eid cid = Except.error (VC.Err.electionEnded eid)) := by
  refine ⟨?_, ?_, ?_⟩
  · intro h7 h8 hp
    constructor
    · exact VC.castVote_ok_of_checks ⟨h1, h2, h3, h4, Nat.le_refl _, hw, h7, h8⟩ hp
    · exact VC.castVote_ok_of_checks ⟨h1, h2, h3, h4, hw, Nat.le_refl _, h7, h8⟩ hp
  · intro now hnow
    unfold VC.castVote
    rw [if_pos h1, if_neg h2,
        if_neg (show ¬((s.candidates cid).exists_ = false) by simp [h3]),
        if_neg (show ¬((s.elections eid).isActive = false) by simp [h4]),
        if_pos hnow]
  · intro now hnow
    unfold VC.castVote
    rw [if_pos h1, if_neg h2,
        if_neg (show ¬((s.candidates cid).exists_ = false) by simp [h3]),
        if_neg (show ¬((s.elections eid).isActive = false) by simp [h4]),
        if_neg (show ¬(now < (s.elections eid).startTime) by omega),
        if_pos hnow]

/-- Witness for C5 (amended) in the unpaused sample state with window
`[10, 20]`: a vote at 10 and at 20 commits, a vote at 9 reverts with
`ElectionNotStarted`, a vote at 21 reverts with `ElectionEnded`. -/
theorem claimC5_window_boundaries_witness :
    VC.castVote (VC.sampleState false) 2 10 1 1
      = Except.ok (VC.castVoteCommit (VC.sampleState false) 2 1 1) ∧
    VC.castVote (VC.sampleState false) 2 20 1 1
      = Except.ok (VC.castVoteCommit (VC.sampleState false) 2 1 1) ∧
    VC.castVote (VC.sampleState false) 2 9 1 1
      = Except.error (VC.Err.electionNotStarted 1) ∧
    VC.castVote (VC.sampleState false) 2 21 1 1
      = Except.error (VC.Err.electionEnded 1) := by
  have h := claimC5_window_boundaries (VC.sampleState false) 2 1 1
    (by decide) (by decide) (by decide) (by decide) (by decide)
  have hok := h.1 (by decide) (by decide) rfl
  exact ⟨hok.1, hok.2, h.2.1 9 (by decide), h.2.2 21 (by decide)⟩

namespace VC

theorem batchStep_isReg (now : Nat) (s : State) (v p : Nat) :
    (batchStep now s v).isVoterRegistered p
      = if p = v then true else s.isVoterRegistered p := by
  by_cases hv : s.isVoterRegistered v = true
  · by_cases hp : p = v
    · subst hp
      simp [batchStep, hv]
    · simp [batchStep, hv, hp]
  · by_cases hp : p = v
    · subst hp
      simp [batchStep, hv, registerOne, upd]
    · simp [batchStep, hv, registerOne, upd, hp]

theorem batchStep_time (now : Nat) (s : State) (v p : Nat) :
    (batchStep now s v).voterRegistrationTime p
      = if s.isVoterRegistered v = false ∧ p = v then now
        else s.voterRegistrationTime p := by
  by_cases hv : s.isVoterRegistered v = true
  · simp [batchStep, hv]
  · by_cases hp : p = v
    · subst hp
      simp [batchStep, hv, registerOne, upd, Bool.not_eq_true _ ▸ hv]
    · simp [batchStep, hv, registerOne, upd, hp]

theorem batchStep_role (now : Nat) (s : State) (v p : Nat) :
    (batchStep now s v).roles Role.VOTER p
      = if s.isVoterRegistered v = false ∧ p = v then true
        else s.roles Role.VOTER p := by
  by_cases hv : s.isVoterRegistered v = true
  · simp [batchStep, hv]
  · by_cases hp : p = v
    · subst hp
      simp [batchStep, hv, registerOne, setRole]
    · simp [batchStep, hv, registerOne, setRole, hp]

theorem batchFold_isReg (now : Nat) (l : List Nat) (s : State) (p : Nat) :
    (l.foldl (batchStep now) s).isVoterRegistered p
      = if p ∈ l then true else s.isVoterRegistered p := by
  induction l generalizing s with
  | nil => simp
  | cons v tl ih =>
    rw [List.foldl_cons, ih]
    by_cases hp : p = v
    · subst hp
      by_cases htl : p ∈ tl <;> simp [htl, batchStep_isReg]
    · by_cases htl : p ∈ tl <;> simp [htl, hp, batchStep_isReg]

theorem batchFold_time (now : Nat) (l : List Nat) (s : State) (p : Nat) :
    (l.foldl (batchStep now) s).voterRegistrationTime p
      = if s.isVoterRegistered p = false ∧ p ∈ l then now
        else s.voterRegistrationTime p := by
  induction l generalizing s with
  | nil => simp
  | cons v tl ih =>
    rw [List.foldl_cons, ih]
    by_cases hp : p = v
    · subst hp
      by_cases hv : s.isVoterRegistered p = true
      · simp [batchStep, hv]
      · have hv' : s.isVoterRegistered p = false := by
          cases hregv : s.isVoterRegistered p
          · rfl
          · exact absurd hregv hv
        simp [batchStep, hv', batchStep_isReg, batchStep_time, registerOne, upd]
    · rw [batchStep_isReg, batchStep_time]
      by_cases hv : s.isVoterRegistered v = false
      · simp only [hp, if_false, hv, true_and, if_neg (by simp [hp] : ¬(p = v))]
        by_cases hreg : s.isVoterRegistered p = false
        · by_cases htl : p ∈ tl <;> simp [hreg, htl, hp]
        · simp [hreg]
      · simp only [hv, false_and, if_false, if_neg (by simp [hp] : ¬(s.isVoterRegistered v = false ∧ p = v))]
        by_cases hreg : s.isVoterRegistered p = false
        · by_cases htl : p ∈ tl <;> simp [hreg, htl, hp]
        · simp [hreg]

theorem batchFold_role (now : Nat) (l : List Nat) (s : State) (p : Nat) :
    (l.foldl (batchStep now) s).roles Role.VOTER p
      = if s.isVoterRegistered p = false ∧ p ∈ l then true
        else s.roles Role.VOTER p := by
  induction l generalizing s with
  | nil => simp
  | cons v tl ih =>
    rw [List.foldl_cons, ih]
    by_cases hp : p = v
    · subst hp
      by_cases hv : s.isVoterRegistered p = true
      · simp [batchStep, hv]
      · have hv' : s.isVoterRegistered p = false := by
          cases hregv : s.isVoterRegistered p
          · rfl
          · exact absurd hregv hv
        simp [batchStep, hv', batchStep_isReg, batchStep_role, registerOne, setRole, upd]
    · rw [batchStep_isReg, batchStep_role]
      by_cases hv : s.isVoterRegistered v = false
      · simp only [hp, if_false, hv, true_and, if_neg (by simp [hp] : ¬(p = v))]
        by_cases hreg : s.isVoterRegistered p = false
        · by_cases htl : p ∈ tl <;> simp [hreg, htl, hp]
        · simp [hreg]
      · simp only [hv, false_and, if_false, if_neg (by simp [hp] : ¬(s.isVoterRegistered v = false ∧ p = v))]
        by_cases hreg : s.isVoterRegistered p = false
        · by_cases htl : p ∈ tl <;> simp [hreg, htl, hp]
        · simp [hreg]

end VC

/-- Claim C8: `batchRegisterVoters` called by an Administrator fails
with the empty-batch error on an empty list and with the too-large
error on more than 100 entries; otherwise it succeeds as a whole,
leaving every already-registered principal untouched (registration
time and Voter role unchanged) and registering exactly the
not-yet-registered listed principals (flag set, time stamped `now`,
Voter role granted); principals not listed are unchanged. -/
theorem claimC8_batch_register (s : VC.State) (caller now : Nat) (vs : List Nat)
    (hadmin : s.roles VC.Role.ADMIN caller = true) :
    (vs = [] → VC.batchRegisterVoters s caller now vs = Except.error VC.Err.emptyBatch) ∧
    (100 < vs.length → vs ≠ [] →
       VC.batchRegisterVoters s caller now vs = Except.error VC.Err.batchTooLarge) ∧
    (vs ≠ [] → vs.length ≤ 100 →
       VC.batchRegisterVoters s caller now vs
         = Except.ok (vs.foldl (VC.batchStep now) s) ∧
       (∀ p, s.isVoterRegistered p = true →
          (vs.foldl (VC.batchStep now) s).isVoterRegistered p = true ∧
          (vs.foldl (VC.batchStep now) s).voterRegistrationTime p
            = s.voterRegistrationTime p ∧
          (vs.foldl (VC.batchStep now) s).roles VC.Role.VOTER p
            = s.roles VC.Role.VOTER p) ∧
       (∀ p, s.isVoterRegistered p = false → p ∈ vs →
          (vs.foldl (VC.batchStep now) s).isVoterRegistered p = true ∧
          (vs.foldl (VC.batchStep now) s).voterRegistrationTime p = now ∧
          (vs.foldl (VC.batchStep now) s).roles VC.Role.VOTER p = true) ∧
       (∀ p, p ∉ vs →
          (vs.foldl (VC.batchStep now) s).isVoterRegistered p
            = s.isVoterRegistered p ∧
          (vs.foldl (VC.batchStep now) s).voterRegistrationTime p
            = s.voterRegistrationTime p ∧
          (vs.foldl (VC.batchStep now) s).roles VC.Role.VOTER p
            = s.roles VC.Role.VOTER p)) := by
  refine ⟨?_, ?_, ?_⟩
  · intro hemp
    subst hemp
    unfold VC.batchRegisterVoters
    rw [if_pos hadmin]
    rfl
  · intro hbig _
    unfold VC.batchRegisterVoters
    rw [if_pos hadmin, if_neg (by omega : ¬(vs.length = 0)), if_pos hbig]
  · intro hne hlen
    refine ⟨?_, ?_, ?_, ?_⟩
    · unfold VC.batchRegisterVoters
      rw [if_pos hadmin,
          if_neg (by simpa [List.length_eq_zero] using hne),
          if_neg (Nat.not_lt.mpr hlen)]
    · intro p hreg
      refine ⟨?_, ?_, ?_⟩
      · rw [VC.batchFold_isReg]
        by_cases hm : p ∈ vs <;> simp [hm, hreg]
      · rw [VC.batchFold_time]
        simp [hreg]
      · rw [VC.batchFold_role]
        simp [hreg]
    · intro p hreg hm
      refine ⟨?_, ?_, ?_⟩
      · rw [VC.batchFold_isReg]
        simp [hm]
      · rw [VC.batchFold_time]
        simp [hreg, hm]
      · rw [VC.batchFold_role]
        simp [hreg, hm]
    · intro p hm
      refine ⟨?_, ?_, ?_⟩
      · rw [VC.batchFold_isReg]
        simp [hm]
      · rw [VC.batchFold_time]
        simp [hm]
      · rw [VC.batchFold_role]
        simp [hm]

/-- Witness for C8: in the sample state (address 2 already registered
at time 5) the batch `[2, 3]` succeeds, re-stamping nothing for 2 and
registering 3 at the call time 9. -/
theorem claimC8_batch_register_witness :
    VC.batchRegisterVoters (VC.sampleState false) 1 9 [2, 3]
      = Except.ok ([2, 3].foldl (VC.batchStep 9) (VC.sampleState false)) ∧
    ([2, 3].foldl (VC.batchStep 9) (VC.sampleState false)).voterRegistrationTime 2 = 5 ∧
    ([2, 3].foldl (VC.batchStep 9) (VC.sampleState false)).voterRegistrationTime 3 = 9 ∧
    ([2, 3].foldl (VC.batchStep 9) (VC.sampleState false)).isVoterRegistered 3 = true := by
  have h := claimC8_batch_register (VC.sampleState false) 1 9 [2, 3] (by decide)
  have hok := h.2.2 (by decide) (by decide)
  exact ⟨hok.1, (hok.2.1 2 rfl).2.1, (hok.2.2.1 3 rfl (by decide)).2.1,
         (hok.2.2.1 3 rfl (by decide)).1⟩

/-- Claim C9: for a not-yet-registered principal, the first
`registerVoter` call by an Administrator commits — creating the voter
record with the call timestamp and granting the Voter role — and an
immediately repeated call reverts with the already-registered error,
leaving the state exactly as after the first call (a revert produces no
successor state in this model). -/
theorem claimC9_register_idempotent (s : VC.State) (caller now1 now2 p : Nat)
    (hadmin : s.roles VC.Role.ADMIN caller = true)
    (hnew : s.isVoterRegistered p = false) :
    VC.registerVoter s caller now1 p = Except.ok (VC.registerOne s now1 p) ∧
    (VC.registerOne s now1 p).isVoterRegistered p = true ∧
    (VC.registerOne s now1 p).voterRegistrationTime p = now1 ∧
    (VC.registerOne s now1 p).roles VC.Role.VOTER p = true ∧
    VC.registerVoter (VC.registerOne s now1 p) caller now2 p
      = Except.error VC.Err.alreadyRegistered := by
  have hadmin' : (VC.registerOne s now1 p).roles VC.Role.ADMIN caller = true := by
    simpa [VC.registerOne, VC.setRole] using hadmin
  refine ⟨?_, ?_, ?_, ?_, ?_⟩
  · unfold VC.registerVoter
    rw [if_pos hadmin, if_neg (by simp [hnew])]
  · simp [VC.registerOne, upd]
  · simp [VC.registerOne, upd]
  · simp [VC.registerOne, VC.setRole]
  · unfold VC.registerVoter
    rw [if_pos hadmin', if_pos (by simp [VC.registerOne, upd])]

/-- Witness for C9: address 2 registered twice from the freshly
deployed state by the deployer at times 5 and 6. -/
theorem claimC9_register_idempotent_witness :
    VC.registerVoter (VC.initialState 1) 1 5 2
      = Except.ok (VC.registerOne (VC.initialState 1) 5 2) ∧
    (VC.registerOne (VC.initialState 1) 5 2).voterRegistrationTime 2 = 5 ∧
    VC.registerVoter (VC.registerOne (VC.initialState 1) 5 2) 1 6 2
      = Except.error VC.Err.alreadyRegistered := by
  have h := claimC9_register_idempotent (VC.initialState 1) 1 5 6 2 (by decide) rfl
  exact ⟨h.1, h.2.2.1, h.2.2.2.2⟩

namespace RM

/-- Reverts of the role-management `VotingContract` variant
(`src/unnamed/part_004`); each constructor stands for one `require`
message of that file or of the inherited OpenZeppelin `AccessControl`. -/
inductive Err
  | callerNotAdmin        -- "VotingContract: caller is not an admin"
  | invalidAddress        -- "VotingContract: invalid voter/admin address"
  | alreadyRegistered     -- "VotingContract: voter already registered"
  | voterNotRegistered    -- "VotingContract: voter not registered"
  | alreadyAdmin          -- "VotingContract: address already has admin role"
  | noAdminRole           -- "VotingContract: address does not have admin role"
  | cannotRevokeSelf      -- "VotingContract: cannot revoke own admin role"
  | cannotRevokeLastAdmin -- "VotingContract: cannot revoke last admin"
  | emptyBatch            -- "VotingContract: empty voters array"
  | batchTooLarge         -- "VotingContract: too many voters in batch"
  | missingRole           -- OpenZeppelin "AccessControl: account ... is missing role ..."
  | renounceOnlySelf      -- OpenZeppelin "AccessControl: can only renounce roles for self"
deriving DecidableEq

/-- The roles of the variant: `DEFAULT_ADMIN_ROLE` (held by the
deployer), `ADMIN_ROLE` and `VOTER_ROLE`. -/
inductive Role
  | DEFAULT_ADMIN
  | ADMIN
  | VOTER
deriving DecidableEq

/-- Storage of the variant: one enumerable member set behind
`AccessControl` per role (`getRoleMemberCount` / `getRoleMember`). -/
structure State where
  defaultAdminMembers : List Nat
  adminMembers : List Nat
  voterMembers : List Nat
deriving DecidableEq

/-- The member set of a role. -/
def members (s : State) : Role → List Nat
  | Role.DEFAULT_ADMIN => s.defaultAdminMembers
  | Role.ADMIN => s.adminMembers
  | Role.VOTER => s.voterMembers

/-- Replace the member set of a role. -/
def setMembers (s : State) : Role → List Nat → State
  | Role.DEFAULT_ADMIN, l => { s with defaultAdminMembers := l }
  | Role.ADMIN, l => { s with adminMembers := l }
  | Role.VOTER, l => { s with voterMembers := l }

/-- The admin role of every role after the constructor ran:
`_setRoleAdmin(VOTER_ROLE, ADMIN_ROLE)` is called there, and the other
two roles keep the OpenZeppelin default `DEFAULT_ADMIN_ROLE`. -/
def roleAdmin : Role → Role
  | Role.DEFAULT_ADMIN => Role.DEFAULT_ADMIN
  | Role.ADMIN => Role.DEFAULT_ADMIN
  | Role.VOTER => Role.ADMIN

/-- Constructor: the deployer receives `DEFAULT_ADMIN_ROLE` and
`ADMIN_ROLE`. -/
def initialState (deployer : Nat) : State :=
  { defaultAdminMembers := [deployer], adminMembers := [deployer], voterMembers := [] }

/-- OpenZeppelin `_grantRole` on an enumerable member set: adds the
account only when it is not yet a member. -/
def grantMember (l : List Nat) (a : Nat) : List Nat :=
  if a ∈ l then l else a :: l

/-- `isRegisteredVoter` of the variant: `hasRole(VOTER_ROLE, voter)`. -/
def isRegisteredVoter (s : State) (voter : Nat) : Bool :=
  decide (voter ∈ s.voterMembers)

/-- `isAdmin` of the variant: `hasRole(ADMIN_ROLE, admin)`. -/
def isAdmin (s : State) (admin : Nat) : Bool :=
  decide (admin ∈ s.adminMembers)

/-- `registerVoter` of the variant. -/
def registerVoter (s : State) (caller voter : Nat) : Except Err State :=
  if caller ∈ s.adminMembers then
    if voter = 0 then Except.error Err.invalidAddress
    else if voter ∈ s.voterMembers then Except.error Err.alreadyRegistered
    else Except.ok { s with voterMembers := grantMember s.voterMembers voter }
  else Except.error Err.callerNotAdmin

/-- `registerVotersBatch` of the variant: the in-loop `require` on the
zero address reverts the whole call, so the net effect is an error when
any listed address is zero and otherwise the fold of conditional
grants. -/
def registerVotersBatch (s : State) (caller : Nat) (voters : List Nat) : Except Err State :=
  if caller ∈ s.adminMembers then
    if voters.length = 0 then Except.error Err.emptyBatch
    else if 100 < voters.length then Except.error Err.batchTooLarge
    else if 0 ∈ voters then Except.error Err.invalidAddress
    else Except.ok { s with voterMembers := voters.foldl grantMember s.voterMembers }
  else Except.error Err.callerNotAdmin

/-- `revokeVoter` of the variant. -/
def revokeVoter (s : State) (caller voter : Nat) : Except Err State :=
  if caller ∈ s.adminMembers then
    if voter = 0 then Except.error Err.invalidAddress
    else if voter ∈ s.voterMembers then
      Except.ok { s with voterMembers := s.voterMembers.erase voter }
    else Except.error Err.voterNotRegistered
  else Except.error Err.callerNotAdmin

/-- `grantAdminRole` of the variant. -/
def grantAdminRole (s : State) (caller newAdmin : Nat) : Except Err State :=
  if caller ∈ s.adminMembers then
    if newAdmin = 0 then Except.error Err.invalidAddress
    else if newAdmin ∈ s.adminMembers then Except.error Err.alreadyAdmin
    else Except.ok { s with adminMembers := grantMember s.adminMembers newAdmin }
  else Except.error Err.callerNotAdmin

/-- `revokeAdminRole` of the variant, with its `require`s in source
order: non-zero target, target holds the role, target is not the
caller, and more than one admin remains. -/
def revokeAdminRole (s : State) (caller admin : Nat) : Except Err State :=
  if caller ∈ s.adminMembers then
    if admin = 0 then Except.error Err.invalidAddress
    else if admin ∈ s.adminMembers then
      if admin = caller then Except.error Err.cannotRevokeSelf
      else if 1 < s.adminMembers.length then
        Except.ok { s with adminMembers := s.adminMembers.erase admin }
      else Except.error Err.cannotRevokeLastAdmin
    else Except.error Err.noAdminRole
  else Except.error Err.callerNotAdmin

/-- The inherited public OpenZeppelin `grantRole`: callable by any
holder of the role's admin role; it is part of the external surface of
the deployed contract, alongside the variant's own functions. -/
def ozGrantRole (s : State) (caller : Nat) (role : Role) (account : Nat) : Except Err State :=
  if caller ∈ members s (roleAdmin role) then
    Except.ok (setMembers s role (grantMember (members s role) account))
  else Except.error Err.missingRole

/-- The inherited public OpenZeppelin `revokeRole`: same guard as
`grantRole`, no further checks — in particular none of the variant's
self-revocation or last-admin guards. -/
def ozRevokeRole (s : State) (caller : Nat) (role : Role) (account : Nat) : Except Err State :=
  if caller ∈ members s (roleAdmin role) then
    Except.ok (setMembers s role ((members s role).erase account))
  else Except.error Err.missingRole

/-- The inherited public OpenZeppelin `renounceRole`: guarded only by
the confirmation that the renounced account is the caller itself. -/
def ozRenounceRole (s : State) (caller : Nat) (role : Role) (account : Nat) : Except Err State :=
  if account = caller then
    Except.ok (setMembers s role ((members s role).erase account))
  else Except.error Err.renounceOnlySelf

/-- One external transaction against the deployed variant: its five
declared functions plus the public entry points inherited from
OpenZeppelin `AccessControl` — `grantRole`, `revokeRole` and
`renounceRole` — which bypass the guards of the variant's own role
functions. -/
inductive Op
  | registerVoter (caller voter : Nat)
  | registerVotersBatch (caller : Nat) (voters : List Nat)
  | revokeVoter (caller voter : Nat)
  | grantAdminRole (caller newAdmin : Nat)
  | revokeAdminRole (caller admin : Nat)
  | ozGrantRole (caller : Nat) (role : Role) (account : Nat)
  | ozRevokeRole (caller : Nat) (role : Role) (account : Nat)
  | ozRenounceRole (caller : Nat) (role : Role) (account : Nat)

def exec (s : State) : Op → Except Err State
  | Op.registerVoter caller v => registerVoter s caller v
  | Op.registerVotersBatch caller vs => registerVotersBatch s caller vs
  | Op.revokeVoter caller v => revokeVoter s caller v
  | Op.grantAdminRole caller a => grantAdminRole s caller a
  | Op.revokeAdminRole caller a => revokeAdminRole s caller a
  | Op.ozGrantRole caller r a => ozGrantRole s caller r a
  | Op.ozRevokeRole caller r a => ozRevokeRole s caller r a
  | Op.ozRenounceRole caller r a => ozRenounceRole s caller r a

inductive Reachable : State → Prop
  | init (deployer : Nat) : Reachable (initialState deployer)
  | step {s s' : State} (op : Op) : Reachable s → exec s op = Except.ok s' → Reachable s'

/-- Result of a call, with a fallback for the error case (used only to
spell out concrete committed states in traces). -/
def afterOk (r : Except Err State) (d : State) : State :=
  match r with
  | Except.ok s => s
  | Except.error _ => d

/-- Trace for the C7 counterexample: the deployer (1) registers voter
2, then revokes voter 2 again. -/
def r0 : State := initialState 1
def r1 : State := afterOk (exec r0 (Op.registerVoter 1 2)) r0
def r2 : State := afterOk (exec r1 (Op.revokeVoter 1 2)) r1

theorem r1_step : exec r0 (Op.registerVoter 1 2) = Except.ok r1 := rfl

theorem r2_step : exec r1 (Op.revokeVoter 1 2) = Except.ok r2 := rfl

theorem r2_reachable : Reachable r2 :=
  Reachable.step _ (Reachable.step _ (Reachable.init 1) r1_step) r2_step

/-- Trace for the C6 counterexample: the deployer (1), sole holder of
`ADMIN_ROLE`, renounces that role through the inherited OpenZeppelin
entry point, leaving zero administrators. -/
def z1 : State :=
  afterOk (exec (initialState 1) (Op.ozRenounceRole 1 Role.ADMIN 1)) (initialState 1)

theorem z1_step : exec (initialState 1) (Op.ozRenounceRole 1 Role.ADMIN 1) = Except.ok z1 := rfl

theorem z1_reachable : Reachable z1 :=
  Reachable.step _ (Reachable.init 1) z1_step

end RM

/-- Counterexample for C6 as stated, in two parts.  First, in the
freshly deployed state (sole admin 1, a reachable state) revoking
admin 1 would leave zero administrators, yet `revokeAdminRole` does not
fail with the last-admin error — it fails with the self-revocation
error, which the source checks first.  Second, the consequent
at-least-one-administrator invariant is false outright: the sole admin
can renounce `ADMIN_ROLE` through the inherited public OpenZeppelin
`renounceRole`, which bypasses every guard of `revokeAdminRole`, so a
reachable state with zero administrators exists. -/
theorem claimC6_counterexample :
    ((RM.initialState 1).adminMembers.erase 1 = [] ∧
     RM.Reachable (RM.initialState 1) ∧
     RM.revokeAdminRole (RM.initialState 1) 1 1 = Except.error RM.Err.cannotRevokeSelf ∧
     RM.Err.cannotRevokeSelf ≠ RM.Err.cannotRevokeLastAdmin) ∧
    (RM.exec (RM.initialState 1) (RM.Op.ozRenounceRole 1 RM.Role.ADMIN 1)
       = Except.ok RM.z1 ∧
     RM.z1.adminMembers = [] ∧
     RM.Reachable RM.z1) :=
  ⟨⟨rfl, RM.Reachable.init 1, rfl, by decide⟩,
   ⟨RM.z1_step, rfl, RM.z1_reachable⟩⟩

/-- Claim C6 (amended): within the contract's own `revokeAdminRole`,
revocation fails with the self-revocation error when the target equals
the caller, and a `revokeAdminRole` call that would leave zero
administrators never commits (it fails with the self-revocation or
not-an-admin error; the last-admin guard is unreachable).  The
consequent at-least-one-administrator invariant nevertheless fails for
the deployed contract: the inherited public OpenZeppelin `renounceRole`
(and `revokeRole` for a `DEFAULT_ADMIN_ROLE` holder) bypasses these
guards, so a reachable state with zero administrators exists. -/
theorem claimC6_revoke_guards :
    (∀ (s : RM.State) (caller : Nat), caller ≠ 0 → caller ∈ s.adminMembers →
       RM.revokeAdminRole s caller caller = Except.error RM.Err.cannotRevokeSelf) ∧
    (∀ (s : RM.State) (caller target : Nat), s.adminMembers.erase target = [] →
       ∀ s', RM.revokeAdminRole s caller target ≠ Except.ok s') ∧
    (∃ s : RM.State, RM.Reachable s ∧ s.adminMembers = []) := by
  refine ⟨?_, ?_, ⟨RM.z1, RM.z1_reachable, rfl⟩⟩
  · intro s caller h0 hmem
    unfold RM.revokeAdminRole
    rw [if_pos hmem, if_neg h0, if_pos hmem, if_pos rfl]
  · intro s caller target herase s' hok
    unfold RM.revokeAdminRole at hok
    split_ifs at hok with g1 g2 g3 g4 g5
    have hlen : (s.adminMembers.erase target).length = s.adminMembers.length - 1 :=
      List.length_erase_of_mem g3
    rw [herase] at hlen
    simp at hlen
    omega

/-- Witness for C6 (amended): the guard facts applied in the freshly
deployed state with sole admin 1. -/
theorem claimC6_revoke_guards_witness :
    RM.revokeAdminRole (RM.initialState 1) 1 1
      = Except.error RM.Err.cannotRevokeSelf ∧
    (∀ s', RM.revokeAdminRole (RM.initialState 1) 1 1 ≠ Except.ok s') :=
  ⟨claimC6_revoke_guards.1 (RM.initialState 1) 1 (by decide) (by decide),
   claimC6_revoke_guards.2.1 (RM.initialState 1) 1 1 (by decide)⟩

/-- Counterexample for C7 as stated: `isRegisteredVoter` reports Voter
role membership, and the role-management variant exposes `revokeVoter`;
along the reachable trace `r0 → r1 → r2` the value of
`isRegisteredVoter(2)` goes from `true` back to `false`, so it is not
monotonic. -/
theorem claimC7_counterexample :
    RM.isRegisteredVoter RM.r1 2 = true ∧
    RM.exec RM.r1 (RM.Op.revokeVoter 1 2) = Except.ok RM.r2 ∧
    RM.isRegisteredVoter RM.r2 2 = false ∧
    RM.Reachable RM.r2 :=
  ⟨rfl, RM.r2_step, rfl, RM.r2_reachable⟩

/-- Claim C7 (amended): the persistent registration record — the
`isVoterRegistered` flag of `VotingAccessControl`, which backs the
stored `VoterRecord` — is monotone: once true it stays true under every
operation of that contract (which has no voter revocation).  Only the
Voter role itself can be taken away, and only in the role-management
variant, whose `isRegisteredVoter` function therefore does revert to
false (see the counterexample). -/
theorem claimC7_registration_monotone (s : VC.State) (op : VC.Op) (s' : VC.State)
    (p : Nat) (hc : VC.exec s op = Except.ok s')
    (h : s.isVoterRegistered p = true) :
    s'.isVoterRegistered p = true := by
  cases op with
  | castVote caller now eid cid =>
    simp only [VC.exec] at hc
    unfold VC.castVote at hc
    split_ifs at hc
    injection hc with hc
    subst hc
    exact h
  | createElection caller now t d st en cids =>
    simp only [VC.exec] at hc
    unfold VC.createElection at hc
    split_ifs at hc
    injection hc with hc
    subst hc
    exact h
  | addCandidate caller now n d =>
    simp only [VC.exec] at hc
    unfold VC.addCandidate at hc
    split_ifs at hc
    injection hc with hc
    subst hc
    exact h
  | endElection caller eid =>
    simp only [VC.exec] at hc
    unfold VC.endElection at hc
    split_ifs at hc
    injection hc with hc
    subst hc
    exact h
  | toggleElectionStatus caller eid =>
    simp only [VC.exec] at hc
    unfold VC.toggleElectionStatus at hc
    split_ifs at hc
    injection hc with hc
    subst hc
    exact h
  | registerVoter caller now v =>
    simp only [VC.exec] at hc
    unfold VC.registerVoter at hc
    split_ifs at hc
    injection hc with hc
    subst hc
    show upd s.isVoterRegistered v true p = true
    unfold upd
    split_ifs with hp
    · rfl
    · exact h
  | batchRegisterVoters caller now vs =>
    simp only [VC.exec] at hc
    unfold VC.batchRegisterVoters at hc
    split_ifs at hc
    injection hc with hc
    subst hc
    rw [VC.batchFold_isReg]
    split_ifs with hp
    · rfl
    · exact h
  | grantElectionCreatorRole caller a =>
    simp only [VC.exec] at hc
    unfold VC.grantElectionCreatorRole at hc
    split_ifs at hc
    injection hc with hc
    subst hc
    exact h
  | revokeElectionCreatorRole caller a =>
    simp only [VC.exec] at hc
    unfold VC.revokeElectionCreatorRole at hc
    split_ifs at hc
    injection hc with hc
    subst hc
    exact h
  | pause caller =>
    simp only [VC.exec] at hc
    unfold VC.pause at hc
    split_ifs at hc
    injection hc with hc
    subst hc
    exact h
  | unpause caller =>
    simp only [VC.exec] at hc
    unfold VC.unpause at hc
    split_ifs at hc
    injection hc with hc
    subst hc
    exact h

/-- Witness for C7 (amended): after registering voter 2 the flag is
set, and one further step (a vote) preserves it. -/
theorem claimC7_registration_monotone_witness :
    VC.w1.isVoterRegistered 2 = true ∧ VC.w4.isVoterRegistered 2 = true := by
  have h2 : VC.w2.isVoterRegistered 2 = true :=
    claimC7_registration_monotone VC.w1 (VC.Op.addCandidate 1 6 ("A") ("B")) VC.w2 2
      VC.w2_step rfl
  have h3 : VC.w3.isVoterRegistered 2 = true :=
    claimC7_registration_monotone VC.w2 (VC.Op.createElection 1 7 ("E") ("D") 10 20 [1]) VC.w3 2
      VC.w3_step h2
  exact ⟨rfl, claimC7_registration_monotone VC.w3 (VC.Op.castVote 2 10 1 1) VC.w4 2
      VC.w4_step h3⟩

namespace VS

/-- Reverts of `VotingSystem.sol`; each constructor stands for one
`require` message of that file. -/
inductive Err
  | notAuthorized       -- "Voter not authorized"
  | electionNotExists   -- "Election does not exist"
  | electionNotActive   -- "Election is not active"
  | electionNotStarted  -- "Election has not started"
  | electionHasEnded    -- "Election has ended"
  | candidateNotExists  -- "Candidate does not exist"
  | alreadyVoted        -- "Voter has already voted"
  | notOwner            -- "Ownable: caller is not the owner"
  | voterExists         -- "Voter already exists"
  | timeRange           -- "Start time must be before end time"
  | startNotFuture      -- "Start time must be in the future"
  | pausedErr           -- "Pausable: paused"
  | notPausedErr        -- "Pausable: not paused"
deriving DecidableEq

/-- `struct Voter` of `VotingSystem.sol`: note there is one record per
address, not one per address and election — `voted` is global. -/
structure Voter where
  authorized : Bool
  voted : Bool
  vote : Nat
  exists_ : Bool
deriving DecidableEq

def Voter.default0 : Voter :=
  { authorized := false, voted := false, vote := 0, exists_ := false }

/-- `struct Candidate` of `VotingSystem.sol`. -/
structure Candidate where
  id : Nat
  name : String
  party : String
  voteCount : Nat
  exists_ : Bool
deriving DecidableEq

def Candidate.default0 : Candidate :=
  { id := 0, name := "", party := "", voteCount := 0, exists_ := false }

/-- `struct Election` of `VotingSystem.sol`. -/
structure Election where
  id : Nat
  title : String
  description : String
  startTime : Nat
  endTime : Nat
  active : Bool
  exists_ : Bool
deriving DecidableEq

def Election.default0 : Election :=
  { id := 0, title := "", description := "", startTime := 0, endTime := 0,
    active := false, exists_ := false }

/-- Storage of `VotingSystem` (plus the `Ownable` owner and the
`Pausable` flag). -/
structure State where
  voters : Nat → Voter
  candidates : Nat → Candidate
  elections : Nat → Election
  candidatesCount : Nat
  electionsCount : Nat
  totalVotes : Nat
  paused : Bool
  owner : Nat

/-- Constructor of `VotingSystem`. -/
def initialState (deployer : Nat) : State where
  voters := fun _ => Voter.default0
  candidates := fun _ => Candidate.default0
  elections := fun _ => Election.default0
  candidatesCount := 0
  electionsCount := 0
  totalVotes := 0
  paused := false
  owner := deployer

/-- `authorizeVoter` (`onlyOwner`, then the fresh-record check). -/
def authorizeVoter (s : State) (caller voter : Nat) : Except Err State :=
  if caller = s.owner then
    if (s.voters voter).exists_ = true then Except.error Err.voterExists
    else Except.ok { s with
      voters := upd s.voters voter
        { authorized := true, voted := false, vote := 0, exists_ := true } }
  else Except.error Err.notOwner

/-- `addCandidate` (`onlyOwner`; no validation at all). -/
def addCandidate (s : State) (caller : Nat) (nam party : String) : Except Err State :=
  if caller = s.owner then
    Except.ok { s with
      candidatesCount := s.candidatesCount + 1,
      candidates := upd s.candidates (s.candidatesCount + 1)
        { id := s.candidatesCount + 1, name := nam, party := party,
          voteCount := 0, exists_ := true } }
  else Except.error Err.notOwner

/-- `createElection` (`onlyOwner`, then the two time checks). -/
def createElection (s : State) (caller now : Nat) (title descr : String)
    (startTime endTime : Nat) : Except Err State :=
  if caller = s.owner then
    if endTime ≤ startTime then Except.error Err.timeRange
    else if startTime ≤ now then Except.error Err.startNotFuture
    else Except.ok { s with
      electionsCount := s.electionsCount + 1,
      elections := upd s.elections (s.electionsCount + 1)
        { id := s.electionsCount + 1, title := title, description := descr,
          startTime := startTime, endTime := endTime,
          active := true, exists_ := true } }
  else Except.error Err.notOwner

/-- The write section of `vote`: set the global `voted` marker and the
chosen candidate, bump the candidate tally and the global total. -/
def voteCommit (s : State) (caller cid : Nat) : State :=
  { s with
    voters := upd s.voters caller
      { s.voters caller with voted := true, vote := cid },
    candidates := upd s.candidates cid
      { s.candidates cid with voteCount := (s.candidates cid).voteCount + 1 },
    totalVotes := s.totalVotes + 1 }

/-- `vote` of `VotingSystem.sol`, guards in source order —
`onlyAuthorized`, `onlyDuringElection` (existence, active flag, window),
`validCandidate`, `whenNotPaused`, then the body's already-voted
check.  The marker read and written is `voters[msg.sender].voted`,
which does not depend on the election. -/
def vote (s : State) (caller now candidateId electionId : Nat) : Except Err State :=
  if (s.voters caller).authorized = true then
    if (s.elections electionId).exists_ = false then Except.error Err.electionNotExists
    else if (s.elections electionId).active = false then Except.error Err.electionNotActive
    else if now < (s.elections electionId).startTime then Except.error Err.electionNotStarted
    else if (s.elections electionId).endTime < now then Except.error Err.electionHasEnded
    else if (s.candidates candidateId).exists_ = false then Except.error Err.candidateNotExists
    else if s.paused = true then Except.error Err.pausedErr
    else if (s.voters caller).voted = true then Except.error Err.alreadyVoted
    else Except.ok (voteCommit s caller candidateId)
  else Except.error Err.notAuthorized

/-- `toggleElectionStatus` (`onlyOwner`, existence check, flip). -/
def toggleElectionStatus (s : State) (caller electionId : Nat) : Except Err State :=
  if caller = s.owner then
    if (s.elections electionId).exists_ = false then Except.error Err.electionNotExists
    else Except.ok { s with
      elections := upd s.elections electionId
        { s.elections electionId with
          active := !(s.elections electionId).active } }
  else Except.error Err.notOwner

/-- `pause` (`onlyOwner`; `_pause` requires not paused). -/
def pause (s : State) (caller : Nat) : Except Err State :=
  if caller = s.owner then
    if s.paused = true then Except.error Err.pausedErr
    else Except.ok { s with paused := true }
  else Except.error Err.notOwner

/-- `unpause` (`onlyOwner`; `_unpause` requires paused). -/
def unpause (s : State) (caller : Nat) : Except Err State :=
  if caller = s.owner then
    if s.paused = false then Except.error Err.notPausedErr
    else Except.ok { s with paused := false }
  else Except.error Err.notOwner

/-- One external transaction against `VotingSystem`. -/
inductive Op
  | authorizeVoter (caller voter : Nat)
  | addCandidate (caller : Nat) (nam party : String)
  | createElection (caller now : Nat) (title descr : String) (startTime endTime : Nat)
  | vote (caller now candidateId electionId : Nat)
  | toggleElectionStatus (caller electionId : Nat)
  | pause (caller : Nat)
  | unpause (caller : Nat)

def exec (s : State) : Op → Except Err State
  | Op.authorizeVoter caller v => authorizeVoter s caller v
  | Op.addCandidate caller n p => addCandidate s caller n p
  | Op.createElection caller now t d st en => createElection s caller now t d st en
  | Op.vote caller now cid eid => vote s caller now cid eid
  | Op.toggleElectionStatus caller eid => toggleElectionStatus s caller eid
  | Op.pause caller => pause s caller
  | Op.unpause caller => unpause s caller

inductive Reachable : State → Prop
  | init (deployer : Nat) : Reachable (initialState deployer)
  | step {s s' : State} (op : Op) : Reachable s → exec s op = Except.ok s' → Reachable s'

/-- Auxiliary invariant: an authorized or voted voter record exists —
both flags are only ever set through `authorizeVoter`, which also sets
`exists_` (needed because `authorizeVoter` would reset the record of a
non-existing voter). -/
def VInv (s : State) : Prop :=
  ∀ v, ((s.voters v).authorized = true → (s.voters v).exists_ = true) ∧
       ((s.voters v).voted = true → (s.voters v).exists_ = true)

theorem vinv_exec {s s' : State} (op : Op)
    (h : VInv s) (hc : exec s op = Except.ok s') : VInv s' := by
  cases op with
  | authorizeVoter caller t =>
    simp only [exec] at hc
    unfold authorizeVoter at hc
    split_ifs at hc
    injection hc with hc
    subst hc
    intro v
    by_cases hv : v = t
    · subst hv
      constructor <;> intro hx <;> simp [upd]
    · simpa [upd_other _ _ _ hv] using h v
  | addCandidate caller n p =>
    simp only [exec] at hc
    unfold addCandidate at hc
    split_ifs at hc
    injection hc with hc
    subst hc
    exact h
  | createElection caller now t d st en =>
    simp only [exec] at hc
    unfold createElection at hc
    split_ifs at hc
    injection hc with hc
    subst hc
    exact h
  | vote caller now cid eid =>
    simp only [exec] at hc
    unfold vote at hc
    split_ifs at hc with g1 g2 g3 g4 g5 g6 g7 g8
    injection hc with hc
    subst hc
    intro v
    by_cases hv : v = caller
    · subst hv
      have hex : (s.voters v).exists_ = true := (h v).1 g1
      constructor <;> intro hx <;> simp [voteCommit, upd, hex]
    · simpa [voteCommit, upd_other _ _ _ hv] using h v
  | toggleElectionStatus caller eid =>
    simp only [exec] at hc
    unfold toggleElectionStatus at hc
    split_ifs at hc
    injection hc with hc
    subst hc
    exact h
  | pause caller =>
    simp only [exec] at hc
    unfold pause at hc
    split_ifs at hc
    injection hc with hc
    subst hc
    exact h
  | unpause caller =>
    simp only [exec] at hc
    unfold unpause at hc
    split_ifs at hc
    injection hc with hc
    subst hc
    exact h

theorem vinv_reachable {s : State} (h : Reachable s) : VInv s := by
  induction h with
  | init deployer =>
    intro v
    exact ⟨fun hx => by simp [initialState, Voter.default0] at hx,
           fun hx => by simp [initialState, Voter.default0] at hx⟩
  | step op _ hc ih => exact vinv_exec op ih hc

/-- The global `voted` marker never goes back to `false` (given the
auxiliary invariant): `vote` only sets it, `authorizeVoter` cannot
touch an existing record, and no other operation writes `voters`. -/
theorem voted_mono_exec {s s' : State} (op : Op) (hinv : VInv s)
    (hc : exec s op = Except.ok s') (v : Nat)
    (h : (s.voters v).voted = true) : (s'.voters v).voted = true := by
  cases op with
  | authorizeVoter caller t =>
    simp only [exec] at hc
    unfold authorizeVoter at hc
    split_ifs at hc with g1 g2
    injection hc with hc
    subst hc
    by_cases hv : v = t
    · subst hv
      exact absurd ((hinv v).2 h) g2
    · simpa [upd_other _ _ _ hv] using h
  | addCandidate caller n p =>
    simp only [exec] at hc
    unfold addCandidate at hc
    split_ifs at hc
    injection hc with hc
    subst hc
    exact h
  | createElection caller now t d st en =>
    simp only [exec] at hc
    unfold createElection at hc
    split_ifs at hc
    injection hc with hc
    subst hc
    exact h
  | vote caller now cid eid =>
    simp only [exec] at hc
    unfold vote at hc
    split_ifs at hc with g1 g2 g3 g4 g5 g6 g7 g8
    injection hc with hc
    subst hc
    by_cases hv : v = caller
    · subst hv
      exact absurd h g8
    · simpa [voteCommit, upd_other _ _ _ hv] using h
  | toggleElectionStatus caller eid =>
    simp only [exec] at hc
    unfold toggleElectionStatus at hc
    split_ifs at hc
    injection hc with hc
    subst hc
    exact h
  | pause caller =>
    simp only [exec] at hc
    unfold pause at hc
    split_ifs at hc
    injection hc with hc
    subst hc
    exact h
  | unpause caller =>
    simp only [exec] at hc
    unfold unpause at hc
    split_ifs at hc
    injection hc with hc
    subst hc
    exact h

def afterOk (r : Except Err State) (d : State) : State :=
  match r with
  | Except.ok s => s
  | Except.error _ => d

/-- Trace for the C10 witness: owner 0 authorizes voter 2, adds
candidate 1, creates elections 1 (window `[10, 20]`) and 2 (window
`[12, 30]`); voter 2 votes for candidate 1 in election 1 at time 12. -/
def v0 : State := initialState 0
def v1 : State := afterOk (exec v0 (Op.authorizeVoter 0 2)) v0
def v2 : State := afterOk (exec v1 (Op.addCandidate 0 ("A") ("P"))) v1
def v3 : State := afterOk (exec v2 (Op.createElection 0 0 ("E1") ("D") 10 20)) v2
def v4 : State := afterOk (exec v3 (Op.createElection 0 1 ("E2") ("D") 12 30)) v3
def v5 : State := afterOk (exec v4 (Op.vote 2 12 1 1)) v4

theorem v1_step : exec v0 (Op.authorizeVoter 0 2) = Except.ok v1 := rfl

theorem v2_step : exec v1 (Op.addCandidate 0 ("A") ("P")) = Except.ok v2 := rfl

theorem v3_step : exec v2 (Op.createElection 0 0 ("E1") ("D") 10 20) = Except.ok v3 := rfl

theorem v4_step : exec v3 (Op.createElection 0 1 ("E2") ("D") 12 30) = Except.ok v4 := rfl

theorem v5_step : exec v4 (Op.vote 2 12 1 1) = Except.ok v5 := rfl

theorem v5_reachable : Reachable v5 :=
  Reachable.step _
    (Reachable.step _
      (Reachable.step _
        (Reachable.step _
          (Reachable.step _ (Reachable.init 0) v1_step) v2_step) v3_step) v4_step) v5_step

end VS

/-- Claim C10: in `VotingSystem` the has-voted marker is stored once
per voter (`voters[addr].voted`), not per election: a committed vote
sets the caller's marker; the marker never reverts to `false` under any
operation; and once it is set, every further `vote` call by that voter
fails — with the already-voted error whenever the chosen election and
candidate pass the preceding guards, for every election, including ones
the voter never participated in. -/
theorem claimC10_global_voted_marker (s : VS.State) (h : VS.Reachable s) :
    (∀ caller now cid eid s', VS.vote s caller now cid eid = Except.ok s' →
       (s'.voters caller).voted = true) ∧
    (∀ v op s', VS.exec s op = Except.ok s' → (s.voters v).voted = true →
       (s'.voters v).voted = true) ∧
    (∀ caller now cid eid, (s.voters caller).voted = true →
       (∀ s', VS.vote s caller now cid eid ≠ Except.ok s') ∧
       ((s.voters caller).authorized = true → (s.elections eid).exists_ = true →
        (s.elections eid).active = true → (s.elections eid).startTime ≤ now →
        now ≤ (s.elections eid).endTime → (s.candidates cid).exists_ = true →
        s.paused = false →
        VS.vote s caller now cid eid = Except.error VS.Err.alreadyVoted)) := by
  refine ⟨?_, ?_, ?_⟩
  · intro caller now cid eid s' hc
    unfold VS.vote at hc
    split_ifs at hc
    injection hc with hc
    subst hc
    simp [VS.voteCommit, upd]
  · intro v op s' hc hv
    exact VS.voted_mono_exec op (VS.vinv_reachable h) hc v hv
  · intro caller now cid eid hvoted
    constructor
    · intro s' hc
      unfold VS.vote at hc
      split_ifs at hc
    · intro h1 h2 h3 h4 h5 h6 h7
      unfold VS.vote
      rw [if_pos h1,
          if_neg (show ¬((s.elections eid).exists_ = false) by simp [h2]),
          if_neg (show ¬((s.elections eid).active = false) by simp [h3]),
          if_neg (Nat.not_lt.mpr h4), if_neg (Nat.not_lt.mpr h5),
          if_neg (show ¬((s.candidates cid).exists_ = false) by simp [h6]),
          if_neg (show ¬(s.paused = true) by simp [h7]), if_pos hvoted]

/-- Witness for C10: in the reachable state `v5` voter 2 has voted in
election 1 only, yet a vote attempt in the open election 2 — in which
voter 2 never participated — fails with the already-voted error. -/
theorem claimC10_global_voted_marker_witness :
    (VS.v5.voters 2).voted = true ∧
    VS.vote VS.v5 2 13 1 2 = Except.error VS.Err.alreadyVoted ∧
    VS.vote VS.v5 2 13 1 1 = Except.error VS.Err.alreadyVoted := by
  have h := (claimC10_global_voted_marker VS.v5 VS.v5_reachable).2.2 2 13 1 2 rfl
  exact ⟨rfl, h.2 rfl rfl rfl (by decide) (by decide) rfl rfl,
    ((claimC10_global_voted_marker VS.v5 VS.v5_reachable).2.2 2 13 1 1 rfl).2
      rfl rfl rfl (by decide) (by decide) rfl rfl⟩
